import Mathlib

set_option autoImplicit false

/-!
Verification of the infranetes pod-sandbox providers.

Shallow embedding of:
* `pkg/infranetes/provider/common/poddata.go` (two revisions: the one with
  `Filter`/stateful `PodStatus`, used by `pkg/.../aws/aws.go`, and the one with
  `FilterByLabels`, used by `pkg/.../virtualbox/virtualbox.go`),
* `pkg/infranetes/provider/aws/aws.go` (the revision under `pkg/`, and the
  variant revision in the unnamed source file where noted),
* `pkg/infranetes/provider/virtualbox/virtualbox.go`,
* `pkg/infranetes/provider/gcp/gcp_image.go`,
* the manager / request-router RPC layer (unnamed source file).

Go maps are modelled as association lists, sandbox identifiers and image
references as `List Char` (so that `strings.Split` can be modelled and reasoned
about), `time.Time` as a `Nat` count of seconds, and the external libretto /
grpc collaborators (`Provision`, `GetIPs`, `GetState`, `Destroy`,
`CreateClient`, the in-VM agent) as explicit environments of `Except`-valued
oracles.  Backend side effects (VM destruction, client close, state queries)
are recorded in an explicit event trace so that ordering claims can be stated.
-/

namespace Infranetes

/-- Lookup in an association list; models Go `m[k]` (comma-ok form). -/
def alookup {κ α : Type} [DecidableEq κ] (k : κ) : List (κ × α) → Option α
  | [] => none
  | (k', v) :: rest => if k' = k then some v else alookup k rest

/-- Remove a key; models Go `delete(m, k)`. -/
def aerase {κ α : Type} [DecidableEq κ] (k : κ) : List (κ × α) → List (κ × α)
  | [] => []
  | (k', v) :: rest => if k' = k then aerase k rest else (k', v) :: aerase k rest

/-- Insert/overwrite a key; models Go `m[k] = v`. -/
def ainsert {κ α : Type} [DecidableEq κ] (k : κ) (v : α) (m : List (κ × α)) :
    List (κ × α) :=
  (k, v) :: aerase k m

/-- Models Go `strings.Split(s, sep)` for a one-character separator: the
separator never matches the empty string, so the result is never empty and
splitting the empty string yields `[[]]`, exactly as in Go. -/
def splitChar (sep : Char) : List Char → List (List Char)
  | [] => [[]]
  | c :: rest =>
    if c = sep then [] :: splitChar sep rest
    else
      match splitChar sep rest with
      | [] => [[c]]
      | h :: t => (c :: h) :: t

/-- `kubeapi.PodSandBoxState`: proto2 enum, `READY = 0`, `NOTREADY = 1`. -/
inductive PodState
  | ready
  | notReady
deriving DecidableEq, Repr

/-- `common.PodData` (shared per-sandbox record).  The opaque proto fields
`Metadata` and `Linux` and the `StateLock` mutex are not modelled; `Client`
is a handle (`none` models a nil `*common.Client`). -/
structure PodData where
  id : List Char
  annotations : List (String × String)
  createdAt : Nat
  ip : String
  labels : List (String × String)
  client : Option Nat
  podState : PodState
deriving DecidableEq, Repr

/-- `kubeapi.PodSandboxFilter`: proto2 message with optional `Id`, optional
`State` and a `LabelSelector` map. -/
structure PodSandboxFilter where
  id : Option (List Char)
  state : Option PodState
  labelSelector : List (String × String)
deriving DecidableEq, Repr

/-- proto2 getter `filter.GetId()`: zero value `""` when the field is unset. -/
def PodSandboxFilter.getId (f : PodSandboxFilter) : List Char := f.id.getD []

/-- proto2 getter `filter.GetState()`: zero value `READY` when the field is
unset — there is no nil guard in the generated getter. -/
def PodSandboxFilter.getState (f : PodSandboxFilter) : PodState :=
  f.state.getD .ready

/-- The label-selector loop shared by `PodData.Filter` and
`PodData.FilterByLabels`: `true` (mismatch) when some selector key is absent
from the record's labels or is present with a different value. -/
def labelsMismatch (sel : List (String × String))
    (labels : List (String × String)) : Bool :=
  sel.any fun kv =>
    match alookup kv.1 labels with
    | none => true
    | some podVal => decide (podVal ≠ kv.2)

/-- `common.PodData.Filter` (poddata.go): `true` means the record is filtered
out.  Checks, in order: the id (guarded by `GetId() != ""`), the state getter
(unguarded: an unset filter state reads as `READY`), then each label-selector
pair. -/
def PodData.filterOut (p : PodData) (filter : Option PodSandboxFilter) : Bool :=
  match filter with
  | none => false
  | some f =>
    if f.getId ≠ [] ∧ f.getId ≠ p.id then true
    else if f.getState ≠ p.podState then true
    else labelsMismatch f.labelSelector p.labels

/-- `kubeapi.PodSandboxStatus` as populated by `common.PodData.PodStatus`
(the revision that also fills in `State`); the `Network`/`Linux` sub-messages
are represented by the `ip` they carry. -/
structure PodSandboxStatus where
  id : List Char
  createdAt : Nat
  ip : String
  labels : List (String × String)
  annotations : List (String × String)
  state : PodState
deriving DecidableEq, Repr

/-- `common.PodData.PodStatus` (the revision used by the aws provider, which
reads `State` from the record itself). -/
def PodData.podStatus (p : PodData) : PodSandboxStatus :=
  { id := p.id
    createdAt := p.createdAt
    ip := p.ip
    labels := p.labels
    annotations := p.annotations
    state := p.podState }

/-- `kubeapi.PodSandbox` as populated by `common.PodData.GetSandbox`. -/
structure PodSandbox where
  id : List Char
  createdAt : Nat
  labels : List (String × String)
  annotations : List (String × String)
  state : PodState
deriving DecidableEq, Repr

/-- `common.PodData.GetSandbox` (revision that fills in `State` from the
record; the virtualbox provider overwrites `State` afterwards). -/
def PodData.getSandbox (p : PodData) : PodSandbox :=
  { id := p.id
    createdAt := p.createdAt
    labels := p.labels
    annotations := p.annotations
    state := p.podState }

/-- `lvm.VMRunning` (libretto). -/
def vmRunning : String := "running"

/-- One constructor per `fmt.Errorf` site reached by the modelled operations
(the formatted message detail is carried as the wrapped collaborator error /
identifier). -/
inductive Err
  | readKeyFailed (msg : String)
  | provisionFailed (msg : String)
  | getIPsFailed (msg : String)
  | panicIndexOutOfRange
  | createClientFailed (msg : String)
  | nilClient
  | notFound (op : String) (id : List Char)
  | destroyFailed (msg : String)
  | getStateFailed (msg : String)
  | unknownPodName (id : List Char)
deriving DecidableEq, Repr

/-- Backend side effects, recorded in the order the Go code issues them. -/
inductive Ev
  | provisionVM (vm : Nat)
  | destroyVM (vm : Nat)
  | closeClient (c : Option Nat)
  | deleteEntry (id : List Char)
  | queryState (vm : Nat)
deriving DecidableEq, Repr

/-- The caller-supplied part of a `kubeapi.RunPodSandboxRequest` that ends up
in the record (metadata's name/namespace only feed the backend VM name). -/
structure RunReq where
  mdNamespace : String
  mdName : String
  labels : List (String × String)
  annotations : List (String × String)
deriving Repr

namespace Aws

/-- The aws provider's `podData`: `common.PodData` plus the VM handle and the
cached backend-state sample with its timestamp. -/
structure AwsPod where
  pod : PodData
  vm : Nat
  vmState : String
  vmStateLastChecked : Nat
deriving DecidableEq, Repr

/-- `awsProvider.vmMap`. -/
abbrev VmMap := List (List Char × AwsPod)

/-- External collaborators of the aws provider (libretto `aws.VM` plus
`ioutil.ReadFile` of the ssh key and `common.CreateClient`); a freshly
provisioned VM is identified by a `Nat` handle and `instanceId` is the
`InstanceID` the backend assigned to it.  `createClient` returning
`.ok none` models a nil `*common.Client` with a nil error. -/
structure Env where
  readKey : Except String String
  provision : Except String Nat
  instanceId : Nat → List Char
  getIPs : Nat → Except String (List String)
  createClient : String → Except String (Option Nat)
  destroy : Nat → Except String Unit
  getState : Nat → Except String String

/-- `awsProvider.RunPodSandbox`: read ssh key, provision the VM, read its IPs
(`ips[0]` panics if the list is empty), create the agent client — destroying
the VM only on the nil-client path — and only then insert the record, marked
`READY` with a fresh `running` state sample. -/
def runPodSandbox (env : Env) (now : Nat) (m : VmMap) (req : RunReq) :
    Except Err (List Char) × VmMap × List Ev :=
  match env.readKey with
  | .error e => (.error (.readKeyFailed e), m, [])
  | .ok _ =>
    match env.provision with
    | .error e => (.error (.provisionFailed e), m, [])
    | .ok vm =>
      match env.getIPs vm with
      | .error e => (.error (.getIPsFailed e), m, [.provisionVM vm])
      | .ok [] => (.error .panicIndexOutOfRange, m, [.provisionVM vm])
      | .ok (ip :: _) =>
        let name := env.instanceId vm
        match env.createClient ip with
        | .error e => (.error (.createClientFailed e), m, [.provisionVM vm])
        | .ok none =>
          (.error .nilClient, m, [.provisionVM vm, .destroyVM vm])
        | .ok (some client) =>
          let pd : AwsPod :=
            { pod :=
                { id := name
                  annotations := req.annotations
                  createdAt := now
                  ip := ip
                  labels := req.labels
                  client := some client
                  podState := .ready }
              vm := vm
              vmState := vmRunning
              vmStateLastChecked := now }
          (.ok name, ainsert name pd m, [.provisionVM vm])

/-- `awsProvider.StopPodSandbox`: `getPodData` (`NotFound` on a missing id),
then `PodData.StopPod`, which sets `PodState = NOTREADY`. -/
def stopPodSandbox (m : VmMap) (id : List Char) :
    Except Err Unit × VmMap × List Ev :=
  match alookup id m with
  | none => (.error (.notFound "StopPodSandbox" id), m, [])
  | some pd =>
    let pd' := { pd with pod := { pd.pod with podState := .notReady } }
    (.ok (), ainsert id pd' m, [])

/-- `awsProvider.RemovePodSandbox`: `getPodData`, then `vm.Destroy()` (a
failure aborts with the record retained), then `PodData.RemovePod` (closes the
client), then `delete(v.vmMap, id)` — in that order. -/
def removePodSandbox (env : Env) (m : VmMap) (id : List Char) :
    Except Err Unit × VmMap × List Ev :=
  match alookup id m with
  | none => (.error (.notFound "RemovePodSandbox" id), m, [])
  | some pd =>
    match env.destroy pd.vm with
    | .error e => (.error (.destroyFailed e), m, [.destroyVM pd.vm])
    | .ok _ =>
      (.ok (), aerase id m,
        [.destroyVM pd.vm, .closeClient pd.pod.client, .deleteEntry id])

/-- `updateVMState` (aws.go): query the backend only when the cached sample is
over 30 seconds old (`time.Now().After(lastChecked.Add(30s))`, strict); a
query failure leaves both the sample and its timestamp untouched and the
stale sample is returned. -/
def updateVMState (env : Env) (now : Nat) (pd : AwsPod) :
    String × AwsPod × List Ev :=
  if now > pd.vmStateLastChecked + 30 then
    match env.getState pd.vm with
    | .ok s => (s, { pd with vmState := s, vmStateLastChecked := now },
        [.queryState pd.vm])
    | .error _ => (pd.vmState, pd, [.queryState pd.vm])
  else (pd.vmState, pd, [])

/-- The downgrade step shared by `PodSandboxStatus` and `filter`:
`if vmState != lvm.VMRunning { podData.PodState = NOTREADY }`. -/
def downgrade (st : String) (pd : AwsPod) : AwsPod :=
  if st ≠ vmRunning then { pd with pod := { pd.pod with podState := .notReady } }
  else pd

/-- `awsProvider.PodSandboxStatus`: `getPodData`, staleness-checked refresh,
downgrade of the record's `PodState` when the sample is not `running`, then a
status snapshot of the (mutated-in-place) record; the updated record is
written back to the map to model the in-place mutation. -/
def podSandboxStatus (env : Env) (now : Nat) (m : VmMap) (id : List Char) :
    Except Err PodSandboxStatus × VmMap × List Ev :=
  match alookup id m with
  | none => (.error (.notFound "PodSandboxStatus" id), m, [])
  | some pd =>
    let r := updateVMState env now pd
    let pd2 := downgrade r.1 r.2.1
    (.ok pd2.pod.podStatus, ainsert id pd2 m, r.2.2)

/-- `filter` (aws.go, the per-record body of `ListPodSandbox`): refresh,
downgrade, then `PodData.Filter`; returns the sandbox when kept. -/
def filterOne (env : Env) (now : Nat) (reqFilter : Option PodSandboxFilter)
    (pd : AwsPod) : Option PodSandbox × AwsPod × List Ev :=
  let r := updateVMState env now pd
  let pd2 := downgrade r.1 r.2.1
  if pd2.pod.filterOut reqFilter then (none, pd2, r.2.2)
  else (some pd2.pod.getSandbox, pd2, r.2.2)

/-- `awsProvider.ListPodSandbox`: apply `filter` to every record (the Go map
iteration order is arbitrary; the model iterates the association list in
order), collecting the kept sandboxes and the mutated records. -/
def listPodSandbox (env : Env) (now : Nat) (m : VmMap)
    (reqFilter : Option PodSandboxFilter) :
    List PodSandbox × VmMap × List Ev :=
  match m with
  | [] => ([], [], [])
  | (id, pd) :: rest =>
    let r := filterOne env now reqFilter pd
    let rs := listPodSandbox env now rest reqFilter
    ((match r.1 with | some s => s :: rs.1 | none => rs.1),
      (id, r.2.1) :: rs.2.1, r.2.2 ++ rs.2.2)

/-- `awsProvider.GetClient`/`GetClientLocked`: `getPodData`, then the record's
client handle. -/
def getClient (m : VmMap) (podName : List Char) : Except Err (Option Nat) :=
  match alookup podName m with
  | none => .error (.unknownPodName podName)
  | some pd => .ok pd.pod.client

/-- `awsProvider.GetVMList` (the revision under `pkg/`): the map's keys. -/
def getVMList (m : VmMap) : List (List Char) := m.map (·.1)

end Aws

namespace Vbox

/-- The virtualbox provider's `podData`: `common.PodData` plus the VM value.
There is no cached state sample and no staleness timestamp in this variant. -/
structure VboxPod where
  pod : PodData
  vm : Nat
deriving DecidableEq, Repr

/-- `vboxProvider.vmMap`. -/
abbrev VmMap := List (List Char × VboxPod)

/-- External collaborators of the virtualbox provider (libretto
`virtualbox.VM` and `common.CreateClient`); `getName` is `vm.GetName()`.
`createClient` returning `.ok none` models a nil client with a nil error —
this provider performs no nil check and stores it as-is. -/
structure Env where
  provision : Except String Nat
  getName : Nat → List Char
  getIPs : Nat → Except String (List String)
  createClient : String → Except String (Option Nat)
  destroy : Nat → Except String Unit
  getState : Nat → Except String String

/-- `vboxProvider.RunPodSandbox`: provision, read IPs (`ips[0]` panics when
empty), create the agent client (no nil check, and no VM teardown on any
failure path), then insert the record marked `READY`. -/
def runPodSandbox (env : Env) (now : Nat) (m : VmMap) (req : RunReq) :
    Except Err (List Char) × VmMap × List Ev :=
  match env.provision with
  | .error e => (.error (.provisionFailed e), m, [])
  | .ok vm =>
    match env.getIPs vm with
    | .error e => (.error (.getIPsFailed e), m, [.provisionVM vm])
    | .ok [] => (.error .panicIndexOutOfRange, m, [.provisionVM vm])
    | .ok (ip :: _) =>
      match env.createClient ip with
      | .error e => (.error (.createClientFailed e), m, [.provisionVM vm])
      | .ok client =>
        let name := env.getName vm
        let pd : VboxPod :=
          { pod :=
              { id := name
                annotations := req.annotations
                createdAt := now
                ip := ip
                labels := req.labels
                client := client
                podState := .ready }
            vm := vm }
        (.ok name, ainsert name pd m, [.provisionVM vm])

/-- `vboxProvider.StopPodSandbox`: `getPodData`, then `PodData.StopPod`. -/
def stopPodSandbox (m : VmMap) (id : List Char) :
    Except Err Unit × VmMap × List Ev :=
  match alookup id m with
  | none => (.error (.notFound "StopPodSandbox" id), m, [])
  | some pd =>
    let pd' := { pd with pod := { pd.pod with podState := .notReady } }
    (.ok (), ainsert id pd' m, [])

/-- `vboxProvider.RemovePodSandbox`: `getPodData`, `vm.Destroy()` (failure
aborts, retaining the record), `PodData.RemovePod` (client close), then
`delete(v.vmMap, id)` — in that order. -/
def removePodSandbox (env : Env) (m : VmMap) (id : List Char) :
    Except Err Unit × VmMap × List Ev :=
  match alookup id m with
  | none => (.error (.notFound "RemovePodSandbox" id), m, [])
  | some pd =>
    match env.destroy pd.vm with
    | .error e => (.error (.destroyFailed e), m, [.destroyVM pd.vm])
    | .ok _ =>
      (.ok (), aerase id m,
        [.destroyVM pd.vm, .closeClient pd.pod.client, .deleteEntry id])

/-- `vboxProvider.PodSandboxStatus`: `getPodData`, build the snapshot, then
call `vm.GetState()` unconditionally — there is no cache, and a query failure
is returned as an error — and report `NOTREADY` when the live state is not
`running` (the stored record is not mutated). -/
def podSandboxStatus (env : Env) (m : VmMap) (id : List Char) :
    Except Err PodSandboxStatus × VmMap × List Ev :=
  match alookup id m with
  | none => (.error (.notFound "PodSandboxStatus" id), m, [])
  | some pd =>
    match env.getState pd.vm with
    | .error e => (.error (.getStateFailed e), m, [.queryState pd.vm])
    | .ok vmState =>
      let st := if vmState ≠ vmRunning then PodState.notReady
        else pd.pod.podState
      (.ok { pd.pod.podStatus with state := st }, m, [.queryState pd.vm])

/-- The per-record filter decision inlined in `vboxProvider.ListPodSandbox`
(applied to the freshly computed `podState`): `true` keeps the record.
Mirrors the id guard (`GetId() != ""`), the unguarded `GetState()`
comparison, and `FilterByLabels`. -/
def keep (id : List Char) (podState : PodState)
    (labels : List (String × String)) (f : Option PodSandboxFilter) : Bool :=
  match f with
  | none => true
  | some f =>
    if f.getId ≠ [] ∧ f.getId ≠ id then false
    else if f.getState ≠ podState then false
    else !labelsMismatch f.labelSelector labels

/-- `vboxProvider.ListPodSandbox`: for every record, `vm.GetState()` is
queried unconditionally (a failing record is silently skipped via
`continue`), the reported state is downgraded when not `running`, and the
inline filter is applied; the stored records are never mutated. -/
def listPodSandbox (env : Env) (m : VmMap)
    (reqFilter : Option PodSandboxFilter) : List PodSandbox × List Ev :=
  match m with
  | [] => ([], [])
  | (id, pd) :: rest =>
    let rs := listPodSandbox env rest reqFilter
    match env.getState pd.vm with
    | .error _ => (rs.1, .queryState pd.vm :: rs.2)
    | .ok vmState =>
      let podState := if vmState ≠ vmRunning then PodState.notReady
        else pd.pod.podState
      if keep id podState pd.pod.labels reqFilter then
        ({ pd.pod.getSandbox with state := podState } :: rs.1,
          .queryState pd.vm :: rs.2)
      else (rs.1, .queryState pd.vm :: rs.2)

/-- `vboxProvider.GetVMList`: lock, collect the keys, deferred unlock. -/
def getVMList (m : VmMap) : List (List Char) := m.map (·.1)

end Vbox

namespace Part000

/-- Go's `sync.Mutex` aborts the process on an unlock of an unlocked mutex
(`fatal error: sync: unlock of unlocked mutex`). -/
inductive GoFatal
  | unlockOfUnlockedMutex
deriving DecidableEq, Repr

/-- `sync.Mutex.Unlock` on a mutex whose locked state is the boolean:
returns the new (unlocked) state, or the fatal runtime error. -/
def mutexUnlock (locked : Bool) : Except GoFatal Bool :=
  if locked then .ok false else .error .unlockOfUnlockedMutex

/-- `awsProvider.GetVMList` as written in the variant aws.go revision (the
unnamed source file): `Lock()`, `defer Unlock()`, collect the keys, then an
explicit `Unlock()` before `return` — so the deferred `Unlock()` runs on an
already-unlocked mutex. -/
def getVMList (m : Aws.VmMap) : Except GoFatal (List (List Char)) :=
  let locked := true
  let ret := m.map (·.1)
  match mutexUnlock locked with
  | .error f => .error f
  | .ok locked2 =>
    match mutexUnlock locked2 with
    | .error f => .error f
    | .ok _ => .ok ret

end Part000

namespace Router

/-- The error surfaced by a container-scoped manager RPC: either the sandbox
could not be resolved (`"Failed to get client for sandbox %v"`), or the
agent's own error, propagated unchanged. -/
inductive RouteErr
  | sandboxNotFound (podId : List Char)
  | agentError (msg : String)
deriving DecidableEq, Repr

/-- `strings.Split(req.GetContainerId(), ":")[0]` — the first colon-delimited
segment of the composite container identifier (`splitChar` never returns an
empty list, matching Go's `strings.Split`). -/
def parsePodId (containerId : List Char) : List Char :=
  (splitChar ':' containerId).headD []

/-- Modelled from the spec: `Manager.getClient` is not among the provided
source files (only its callers are); per the spec the router "resolves the
agent connection for that sandbox id (fails `SandboxNotFound` if unknown)",
which it does through the pod provider's `GetClient` (aws.go, provided). -/
def getClient (m : Aws.VmMap) (podId : List Char) : Except Err (Option Nat) :=
  Aws.getClient m podId

/-- `Manager.ContainerStatus` (and the identically-shaped `StartContainer`,
`StopContainer`, `RemoveContainer`): parse the sandbox id from the composite
container id, resolve the agent client (failing without contacting any
agent), then forward the original request verbatim and return the agent's
response or error unchanged.  `agent` is the external in-VM agent, indexed by
the resolved client handle; the second component is the trace of
(client, request) forwards actually issued. -/
def containerStatus {Req Resp : Type}
    (agent : Option Nat → Req → Except String Resp) (m : Aws.VmMap)
    (containerId : List Char) (req : Req) :
    Except RouteErr Resp × List (Option Nat × Req) :=
  let podId := parsePodId containerId
  match getClient m podId with
  | .error _ => (.error (.sandboxNotFound podId), [])
  | .ok c =>
    match agent c req with
    | .ok r => (.ok r, [(c, req)])
    | .error e => (.error (.agentError e), [(c, req)])

end Router

namespace Gcp

/-- Image references and ids (`List Char` so that the `strings.Split` tag
check can be modelled). -/
abbrev Ref := List Char

/-- `kubeapi.Image` as built by `toRuntimeAPIImage`. -/
structure GImage where
  id : Ref
  size : Nat
deriving DecidableEq, Repr

/-- `gcpImageProvider.imageMap`. -/
abbrev ImageMap := List (Ref × GImage)

/-- `":latest"`. -/
def latestSuffix : Ref := ':' :: "latest".toList

/-- `gcpImageProvider.ListImages`: with a filter, the single map entry under
the filtered reference (or nothing); without one, every image.  Read-only:
the map is returned untouched. -/
def listImages (m : ImageMap) (filterImage : Option Ref) :
    List GImage × ImageMap :=
  match filterImage with
  | some name =>
    match alookup name m with
    | some i => ([i], m)
    | none => ([], m)
  | none => (m.map (·.2), m)

/-- The tag normalization at the top of `ImageStatus`:
`if len(strings.Split(name, ":")) == 1 { name += ":latest" }`. -/
def normName (reqRef : Ref) : Ref :=
  if (splitChar ':' reqRef).length = 1 then reqRef ++ latestSuffix
  else reqRef

/-- `gcpImageProvider.ImageStatus`: when the reference holds no `:` it is
rewritten in place on the request (`req.Image.Image = name + ":latest"`)
before the `ListImages` lookup; zero matches yield an empty response
(`none`), one match yields the image, more than one is an error
(unreachable through the map lookup).  Returns
(result, final image map, final `req.Image.Image`). -/
def imageStatus (m : ImageMap) (reqRef : Ref) :
    Except String (Option GImage) × ImageMap × Ref :=
  let name := normName reqRef
  let r := listImages m (some name)
  match r.1 with
  | [] => (.ok none, r.2, name)
  | [i] => (.ok (some i), r.2, name)
  | _ => (.error "ImageStatus returned more than one image", r.2, name)

end Gcp

/-! Concrete inputs used by counterexamples and witnesses. -/

/-- A `NotReady` record, as left behind by `StopPodSandbox`. -/
def c4Pod : PodData :=
  { id := ['p', '1']
    annotations := []
    createdAt := 0
    ip := "10.0.0.1"
    labels := []
    client := some 0
    podState := .notReady }

/-- A filter with no component specified. -/
def c4Filter : PodSandboxFilter :=
  { id := none, state := none, labelSelector := [] }

/-- A filter selecting `NotReady` records carrying label `k = v`. -/
def c4Filter2 : PodSandboxFilter :=
  { id := none, state := some .notReady, labelSelector := [("k", "v")] }

/-- A creation request. -/
def cReq : RunReq :=
  { mdNamespace := "default", mdName := "pod-a", labels := [], annotations := [] }

/-- aws environment in which provisioning and the address lookup succeed but
the agent connection attempt returns an error (not a nil client). -/
def c1Env : Aws.Env :=
  { readKey := .ok "KEY"
    provision := .ok 0
    instanceId := fun _ => ['i', '0']
    getIPs := fun _ => .ok ["10.0.0.5"]
    createClient := fun _ => .error "connection refused"
    destroy := fun _ => .ok ()
    getState := fun _ => .ok "running" }

/-- aws environment in which the agent connection call returns a nil client
with a nil error. -/
def c1EnvNil : Aws.Env :=
  { c1Env with createClient := fun _ => .ok none }

/-- aws environment in which everything succeeds. -/
def c1EnvOk : Aws.Env :=
  { c1Env with createClient := fun _ => .ok (some 7) }

/-- virtualbox environment in which everything succeeds. -/
def cVEnvOk : Vbox.Env :=
  { provision := .ok 0
    getName := fun _ => ['p', '1']
    getIPs := fun _ => .ok ["192.168.0.9"]
    createClient := fun _ => .ok (some 3)
    destroy := fun _ => .ok ()
    getState := fun _ => .ok "running" }

/-- virtualbox environment whose backend state query fails. -/
def cVEnvStateFail : Vbox.Env :=
  { cVEnvOk with getState := fun _ => .error "timeout" }

/-- A virtualbox record for the state-refresh counterexample. -/
def c3Pod : Vbox.VboxPod :=
  { pod :=
      { id := ['p', '1']
        annotations := []
        createdAt := 0
        ip := "192.168.0.9"
        labels := []
        client := some 3
        podState := .ready }
    vm := 0 }

/-- A one-record virtualbox directory. -/
def c3Map : Vbox.VmMap := [(['p', '1'], c3Pod)]

/-- aws record with a `running` sample taken at time 0. -/
def c2Pod : Aws.AwsPod :=
  { pod :=
      { id := ['i', '0']
        annotations := []
        createdAt := 0
        ip := "10.0.0.5"
        labels := []
        client := some 7
        podState := .ready }
    vm := 0
    vmState := "running"
    vmStateLastChecked := 0 }

/-- A one-record aws directory. -/
def c2Map : Aws.VmMap := [(['i', '0'], c2Pod)]

/-- aws environment whose backend destroy call fails. -/
def c2EnvDestroyFail : Aws.Env :=
  { c1EnvOk with destroy := fun _ => .error "api error" }

/-- aws environment whose backend state query reports `stopped`. -/
def c5EnvStopped : Aws.Env :=
  { c1EnvOk with getState := fun _ => .ok "stopped" }

/-- An established-sandbox directory for the routing witness. -/
def c6Map : Aws.VmMap :=
  [("sbx1".toList, c2Pod)]

/-- An image record under the tagged reference `img:latest`. -/
def c9Image : Gcp.GImage := { id := "img:latest".toList, size := 1024 }

/-- A one-image gcp directory keyed by `img:latest`. -/
def c9Map : Gcp.ImageMap := [("img:latest".toList, c9Image)]

end Infranetes

namespace Infranetes

/-! ### Helper lemmas -/

theorem alookup_ainsert_self {κ α : Type} [DecidableEq κ] (k : κ) (v : α)
    (m : List (κ × α)) : alookup k (ainsert k v m) = some v := by
  simp [ainsert, alookup]

theorem alookup_aerase_self {κ α : Type} [DecidableEq κ] (k : κ)
    (m : List (κ × α)) : alookup k (aerase k m) = none := by
  induction m with
  | nil => rfl
  | cons hd tl ih =>
    obtain ⟨k', v⟩ := hd
    by_cases h : k' = k <;> simp [aerase, alookup, h, ih]

theorem labelsMismatch_eq_false (sel labels : List (String × String)) :
    labelsMismatch sel labels = false ↔
      ∀ kv ∈ sel, alookup kv.1 labels = some kv.2 := by
  unfold labelsMismatch
  rw [List.any_eq_false]
  constructor
  · intro h kv hm
    have hkv := h kv hm
    cases hl : alookup kv.1 labels with
    | none => rw [hl] at hkv; simp at hkv
    | some v =>
      rw [hl] at hkv
      simp at hkv
      rw [hkv]
  · intro h kv hm
    rw [h kv hm]
    simp

/-! ### Claim C4: listing/filter semantics -/

/-- Claim C4 counterexample: a filter with no id, no state and no label
selector specified — which per the claim imposes no constraint — still
excludes a `NotReady` record through `common.PodData.Filter`, because the
unguarded proto getter `filter.GetState()` reads the unset state field as its
zero value `READY`. -/
theorem C4_counterexample :
    c4Filter.id = none ∧ c4Filter.state = none ∧
      c4Filter.labelSelector = [] ∧ c4Pod.podState = PodState.notReady ∧
      c4Pod.filterOut (some c4Filter) = true := by
  decide

/-- Claim C4 (amended): a record passes `common.PodData.Filter` (aws list
path) iff its id matches the filter id whenever that is non-empty, its
lifecycle state equals the filter's state *getter* — which reads an
unspecified state as `Ready`, so an unspecified state excludes `NotReady`
records rather than imposing no constraint — and every label-selector pair is
present in the record's labels with exactly that value (a record lacking a
selected key is excluded); a nil filter keeps everything.  The inline filter
of the virtualbox list path has the same semantics. -/
theorem C4_filter_semantics (p : PodData) (f : PodSandboxFilter) :
    (p.filterOut (some f) = false ↔
      (f.getId = [] ∨ f.getId = p.id) ∧ f.getState = p.podState ∧
        ∀ kv ∈ f.labelSelector, alookup kv.1 p.labels = some kv.2) ∧
    p.filterOut none = false ∧
    (∀ id st labels, Vbox.keep id st labels (some f) = true ↔
      (f.getId = [] ∨ f.getId = id) ∧ f.getState = st ∧
        ∀ kv ∈ f.labelSelector, alookup kv.1 labels = some kv.2) ∧
    (∀ id st labels, Vbox.keep id st labels none = true) := by
  refine ⟨?_, rfl, ?_, fun id st labels => rfl⟩
  · simp only [PodData.filterOut]
    split_ifs with h1 h2
    · refine iff_of_false (by simp) ?_
      rintro ⟨hid, -, -⟩
      rcases hid with hid | hid
      · exact h1.1 hid
      · exact h1.2 hid
    · refine iff_of_false (by simp) ?_
      rintro ⟨-, hst, -⟩
      exact h2 hst
    · rw [labelsMismatch_eq_false]
      have hid : f.getId = [] ∨ f.getId = p.id := by
        by_cases h : f.getId = []
        · exact Or.inl h
        · rcases not_and_or.mp h1 with h' | h'
          · exact absurd h h'
          · exact Or.inr (not_not.mp h')
      have hst : f.getState = p.podState := not_not.mp h2
      constructor
      · intro h
        exact ⟨hid, hst, h⟩
      · intro h
        exact h.2.2
  · intro id st labels
    simp only [Vbox.keep]
    split_ifs with h1 h2
    · refine iff_of_false (by simp) ?_
      rintro ⟨hid, -, -⟩
      rcases hid with hid | hid
      · exact h1.1 hid
      · exact h1.2 hid
    · refine iff_of_false (by simp) ?_
      rintro ⟨-, hst, -⟩
      exact h2 hst
    · rw [Bool.not_eq_true', labelsMismatch_eq_false]
      have hid : f.getId = [] ∨ f.getId = id := by
        by_cases h : f.getId = []
        · exact Or.inl h
        · rcases not_and_or.mp h1 with h' | h'
          · exact absurd h h'
          · exact Or.inr (not_not.mp h')
      have hst : f.getState = st := not_not.mp h2
      constructor
      · intro h
        exact ⟨hid, hst, h⟩
      · intro h
        exact h.2.2

/-- Claim C4 witness: the amended characterization evaluated at the concrete
counterexample record (a nil filter keeps it, and a selector asking for an
absent key excludes it). -/
theorem C4_witness :
    c4Pod.filterOut none = false ∧
      ¬(c4Pod.filterOut (some c4Filter2) = false) := by
  refine ⟨(C4_filter_semantics c4Pod c4Filter).2.1, ?_⟩
  rw [(C4_filter_semantics c4Pod c4Filter2).1]
  rintro ⟨-, -, h⟩
  have hk := h ("k", "v") (by simp [c4Filter2])
  simp [alookup, c4Pod] at hk

/-! ### splitChar lemmas -/

theorem splitChar_ne_nil (sep : Char) (s : List Char) :
    splitChar sep s ≠ [] := by
  cases s with
  | nil => simp [splitChar]
  | cons c rest =>
    simp only [splitChar]
    split_ifs
    · simp
    · cases h : splitChar sep rest <;> simp

theorem splitChar_length_one (sep : Char) (s : List Char) :
    (splitChar sep s).length = 1 ↔ sep ∉ s := by
  induction s with
  | nil => simp [splitChar]
  | cons c rest ih =>
    by_cases hc : c = sep
    · subst hc
      have h1 : splitChar c (c :: rest) = [] :: splitChar c rest := by
        simp [splitChar]
      rw [h1]
      simp only [List.length_cons]
      constructor
      · intro h
        exfalso
        have h0 : (splitChar c rest).length = 0 := by omega
        exact splitChar_ne_nil c rest (List.length_eq_zero.mp h0)
      · intro h
        exact absurd (List.mem_cons_self c rest) h
    · have h1 : splitChar sep (c :: rest) =
          match splitChar sep rest with
          | [] => [[c]]
          | h :: t => (c :: h) :: t := by
        simp [splitChar, hc]
      rw [h1]
      cases h : splitChar sep rest with
      | nil => exact absurd h (splitChar_ne_nil sep rest)
      | cons hd tl =>
        simp only [List.length_cons]
        have hlen : (splitChar sep rest).length = tl.length + 1 := by
          rw [h]; rfl
        rw [hlen] at ih
        constructor
        · intro hl hm
          rcases List.mem_cons.mp hm with h' | h'
          · exact hc h'.symm
          · exact (ih.mp hl) h'
        · intro hm
          exact ih.mpr (fun h' => hm (List.mem_cons_of_mem c h'))

/-! ### Claim C1: create-failure atomicity -/

/-- Claim C1 counterexample: when the agent connection attempt fails with an
error (as opposed to returning a nil client), `awsProvider.RunPodSandbox`
adds no directory entry and returns the error — but it does NOT tear down the
just-provisioned VM: the backend trace records the provisioning and no
`destroyVM` event, refuting the claim's teardown clause for this
agent-unreachable path. -/
theorem C1_counterexample :
    (Aws.runPodSandbox c1Env 0 [] cReq).1 =
      .error (.createClientFailed "connection refused") ∧
    (Aws.runPodSandbox c1Env 0 [] cReq).2.1 = [] ∧
    (Aws.runPodSandbox c1Env 0 [] cReq).2.2 = [.provisionVM 0] ∧
    Ev.destroyVM 0 ∉ (Aws.runPodSandbox c1Env 0 [] cReq).2.2 :=
  ⟨rfl, rfl, rfl, by decide⟩

/-- Claim C1 (amended): in both providers, if VM provisioning, the network
address lookup, or the agent-connection attempt fails, no entry is added to
the sandbox directory and the error is returned; a directory entry appears
only once all three steps succeed.  The just-provisioned VM is torn down
before returning only on the aws provider's nil-client sub-path of the
agent-connection step; when the connection attempt returns an error — and on
every failure path of the virtualbox provider — the VM is not torn down. -/
theorem C1_create_atomicity (env : Aws.Env) (venv : Vbox.Env) (now : Nat)
    (m : Aws.VmMap) (vmm : Vbox.VmMap) (req : RunReq) :
    (∀ e, env.readKey = .error e →
      Aws.runPodSandbox env now m req = (.error (.readKeyFailed e), m, [])) ∧
    (∀ key e, env.readKey = .ok key → env.provision = .error e →
      Aws.runPodSandbox env now m req =
        (.error (.provisionFailed e), m, [])) ∧
    (∀ key vm e, env.readKey = .ok key → env.provision = .ok vm →
      env.getIPs vm = .error e →
      Aws.runPodSandbox env now m req =
        (.error (.getIPsFailed e), m, [.provisionVM vm])) ∧
    (∀ key vm ip ips e, env.readKey = .ok key → env.provision = .ok vm →
      env.getIPs vm = .ok (ip :: ips) → env.createClient ip = .error e →
      Aws.runPodSandbox env now m req =
        (.error (.createClientFailed e), m, [.provisionVM vm])) ∧
    (∀ key vm ip ips, env.readKey = .ok key → env.provision = .ok vm →
      env.getIPs vm = .ok (ip :: ips) → env.createClient ip = .ok none →
      Aws.runPodSandbox env now m req =
        (.error .nilClient, m, [.provisionVM vm, .destroyVM vm])) ∧
    (∀ key vm ip ips c, env.readKey = .ok key → env.provision = .ok vm →
      env.getIPs vm = .ok (ip :: ips) → env.createClient ip = .ok (some c) →
      (Aws.runPodSandbox env now m req).1 = .ok (env.instanceId vm) ∧
      alookup (env.instanceId vm) (Aws.runPodSandbox env now m req).2.1 =
        some { pod := { id := env.instanceId vm
                        annotations := req.annotations
                        createdAt := now
                        ip := ip
                        labels := req.labels
                        client := some c
                        podState := .ready }
               vm := vm
               vmState := vmRunning
               vmStateLastChecked := now } ∧
      (Aws.runPodSandbox env now m req).2.2 = [.provisionVM vm]) ∧
    (∀ e, venv.provision = .error e →
      Vbox.runPodSandbox venv now vmm req =
        (.error (.provisionFailed e), vmm, [])) ∧
    (∀ vm e, venv.provision = .ok vm → venv.getIPs vm = .error e →
      Vbox.runPodSandbox venv now vmm req =
        (.error (.getIPsFailed e), vmm, [.provisionVM vm])) ∧
    (∀ vm ip ips e, venv.provision = .ok vm →
      venv.getIPs vm = .ok (ip :: ips) → venv.createClient ip = .error e →
      Vbox.runPodSandbox venv now vmm req =
        (.error (.createClientFailed e), vmm, [.provisionVM vm])) ∧
    (∀ vm ip ips cl, venv.provision = .ok vm →
      venv.getIPs vm = .ok (ip :: ips) → venv.createClient ip = .ok cl →
      (Vbox.runPodSandbox venv now vmm req).1 = .ok (venv.getName vm) ∧
      alookup (venv.getName vm) (Vbox.runPodSandbox venv now vmm req).2.1 =
        some { pod := { id := venv.getName vm
                        annotations := req.annotations
                        createdAt := now
                        ip := ip
                        labels := req.labels
                        client := cl
                        podState := .ready }
               vm := vm } ∧
      (Vbox.runPodSandbox venv now vmm req).2.2 = [.provisionVM vm]) := by
  refine ⟨?_, ?_, ?_, ?_, ?_, ?_, ?_, ?_, ?_, ?_⟩ <;>
    intros <;>
    simp_all [Aws.runPodSandbox, Vbox.runPodSandbox, alookup_ainsert_self]

/-- Claim C1 witness: the amended statement at concrete environments — the
nil-client path tears the VM down and inserts nothing, and the all-success
path returns the backend-assigned id now present in the directory. -/
theorem C1_witness :
    Aws.runPodSandbox c1EnvNil 5 [] cReq =
      (.error .nilClient, [], [.provisionVM 0, .destroyVM 0]) ∧
    (Aws.runPodSandbox c1EnvOk 5 [] cReq).1 = .ok ['i', '0'] ∧
    alookup ['i', '0'] (Aws.runPodSandbox c1EnvOk 5 [] cReq).2.1 ≠ none := by
  have hnil := (C1_create_atomicity c1EnvNil cVEnvOk 5 [] [] cReq).2.2.2.2.1
    "KEY" 0 "10.0.0.5" [] rfl rfl rfl rfl
  have hok := (C1_create_atomicity c1EnvOk cVEnvOk 5 [] [] cReq).2.2.2.2.2.1
    "KEY" 0 "10.0.0.5" [] 7 rfl rfl rfl rfl
  refine ⟨hnil, hok.1, ?_⟩
  have h2 := hok.2.1
  rw [show c1EnvOk.instanceId 0 = ['i', '0'] from rfl] at h2
  rw [h2]
  simp

/-! ### updateVMState / status helper lemmas -/

theorem updateVMState_fresh (env : Aws.Env) (now : Nat) (pd : Aws.AwsPod)
    (h : ¬now > pd.vmStateLastChecked + 30) :
    Aws.updateVMState env now pd = (pd.vmState, pd, []) := by
  simp [Aws.updateVMState, h]

theorem updateVMState_stale_ok (env : Aws.Env) (now : Nat) (pd : Aws.AwsPod)
    (s : String) (hgt : now > pd.vmStateLastChecked + 30)
    (hs : env.getState pd.vm = .ok s) :
    Aws.updateVMState env now pd =
      (s, { pd with vmState := s, vmStateLastChecked := now },
        [.queryState pd.vm]) := by
  simp [Aws.updateVMState, hgt, hs]

theorem updateVMState_stale_err (env : Aws.Env) (now : Nat) (pd : Aws.AwsPod)
    (e : String) (hgt : now > pd.vmStateLastChecked + 30)
    (he : env.getState pd.vm = .error e) :
    Aws.updateVMState env now pd = (pd.vmState, pd, [.queryState pd.vm]) := by
  simp [Aws.updateVMState, hgt, he]

theorem updateVMState_pod (env : Aws.Env) (now : Nat) (pd : Aws.AwsPod) :
    (Aws.updateVMState env now pd).2.1.pod = pd.pod := by
  unfold Aws.updateVMState
  split_ifs
  · cases env.getState pd.vm <;> rfl
  · rfl

theorem downgrade_not_running (st : String) (p : Aws.AwsPod)
    (h : st ≠ vmRunning) :
    (Aws.downgrade st p).pod = { p.pod with podState := .notReady } := by
  simp [Aws.downgrade, h]

theorem downgrade_running (p : Aws.AwsPod) :
    Aws.downgrade vmRunning p = p := by
  simp [Aws.downgrade]

theorem downgrade_vmState (st : String) (p : Aws.AwsPod) :
    (Aws.downgrade st p).vmState = p.vmState := by
  unfold Aws.downgrade
  split_ifs <;> rfl

theorem downgrade_lastChecked (st : String) (p : Aws.AwsPod) :
    (Aws.downgrade st p).vmStateLastChecked = p.vmStateLastChecked := by
  unfold Aws.downgrade
  split_ifs <;> rfl

theorem downgrade_vm (st : String) (p : Aws.AwsPod) :
    (Aws.downgrade st p).vm = p.vm := by
  unfold Aws.downgrade
  split_ifs <;> rfl

/-- Shape of a successful `awsProvider.PodSandboxStatus`: the refreshed,
possibly downgraded record is reported and written back, and the trace is
the refresh's trace. -/
theorem podSandboxStatus_found (env : Aws.Env) (now : Nat) (m : Aws.VmMap)
    (id : List Char) (pd : Aws.AwsPod) (h : alookup id m = some pd) :
    Aws.podSandboxStatus env now m id =
      (.ok (Aws.downgrade (Aws.updateVMState env now pd).1
          (Aws.updateVMState env now pd).2.1).pod.podStatus,
        ainsert id (Aws.downgrade (Aws.updateVMState env now pd).1
          (Aws.updateVMState env now pd).2.1) m,
        (Aws.updateVMState env now pd).2.2) := by
  simp [Aws.podSandboxStatus, h]

/-! ### Claim C2: removal ordering and failure retention -/

/-- Claim C2: on both providers, `RemovePodSandbox` on an existing sandbox
destroys the backend VM first, then closes the agent connection, then
deletes the directory entry — in exactly that order (witnessed by the event
trace); if backend destruction fails, the destroy error is returned and the
directory is left unchanged (on aws the record is still retrievable via
`Status`, which then succeeds); after a successful remove, a second remove
of the same id fails with the not-found error. -/
theorem C2_remove_ordering (env : Aws.Env) (m : Aws.VmMap) (id : List Char)
    (pd : Aws.AwsPod) (now : Nat) (h : alookup id m = some pd) :
    (env.destroy pd.vm = .ok () →
      (Aws.removePodSandbox env m id).1 = .ok () ∧
      (Aws.removePodSandbox env m id).2.2 =
        [.destroyVM pd.vm, .closeClient pd.pod.client, .deleteEntry id] ∧
      alookup id (Aws.removePodSandbox env m id).2.1 = none ∧
      (Aws.removePodSandbox env
          (Aws.removePodSandbox env m id).2.1 id).1 =
        .error (.notFound "RemovePodSandbox" id)) ∧
    (∀ e, env.destroy pd.vm = .error e →
      (Aws.removePodSandbox env m id).1 = .error (.destroyFailed e) ∧
      (Aws.removePodSandbox env m id).2.1 = m ∧
      (Aws.removePodSandbox env m id).2.2 = [.destroyVM pd.vm] ∧
      ∃ st, (Aws.podSandboxStatus env now m id).1 = .ok st) ∧
    (∀ (venv : Vbox.Env) (vmm : Vbox.VmMap) (vpd : Vbox.VboxPod),
      alookup id vmm = some vpd →
      (venv.destroy vpd.vm = .ok () →
        (Vbox.removePodSandbox venv vmm id).1 = .ok () ∧
        (Vbox.removePodSandbox venv vmm id).2.2 =
          [.destroyVM vpd.vm, .closeClient vpd.pod.client, .deleteEntry id] ∧
        alookup id (Vbox.removePodSandbox venv vmm id).2.1 = none ∧
        (Vbox.removePodSandbox venv
            (Vbox.removePodSandbox venv vmm id).2.1 id).1 =
          .error (.notFound "RemovePodSandbox" id)) ∧
      (∀ e, venv.destroy vpd.vm = .error e →
        (Vbox.removePodSandbox venv vmm id).1 =
          .error (.destroyFailed e) ∧
        (Vbox.removePodSandbox venv vmm id).2.1 = vmm)) := by
  refine ⟨?_, ?_, ?_⟩
  · intro hd
    refine ⟨?_, ?_, ?_, ?_⟩
    · simp [Aws.removePodSandbox, h, hd]
    · simp [Aws.removePodSandbox, h, hd]
    · simp [Aws.removePodSandbox, h, hd, alookup_aerase_self]
    · simp [Aws.removePodSandbox, h, hd, alookup_aerase_self]
  · intro e hd
    refine ⟨?_, ?_, ?_, ?_⟩
    · simp [Aws.removePodSandbox, h, hd]
    · simp [Aws.removePodSandbox, h, hd]
    · simp [Aws.removePodSandbox, h, hd]
    · rw [podSandboxStatus_found env now m id pd h]
      exact ⟨_, rfl⟩
  · intro venv vmm vpd hv
    constructor
    · intro hd
      refine ⟨?_, ?_, ?_, ?_⟩
      · simp [Vbox.removePodSandbox, hv, hd]
      · simp [Vbox.removePodSandbox, hv, hd]
      · simp [Vbox.removePodSandbox, hv, hd, alookup_aerase_self]
      · simp [Vbox.removePodSandbox, hv, hd, alookup_aerase_self]
    · intro e hd
      constructor <;> simp [Vbox.removePodSandbox, hv, hd]

/-- Claim C2 witness: the ordering, second-remove and failure-retention
conjuncts evaluated at a concrete one-record directory. -/
theorem C2_witness :
    (Aws.removePodSandbox c1EnvOk c2Map ['i', '0']).2.2 =
      [.destroyVM 0, .closeClient (some 7), .deleteEntry ['i', '0']] ∧
    (Aws.removePodSandbox c1EnvOk
        (Aws.removePodSandbox c1EnvOk c2Map ['i', '0']).2.1 ['i', '0']).1 =
      .error (.notFound "RemovePodSandbox" ['i', '0']) ∧
    (Aws.removePodSandbox c2EnvDestroyFail c2Map ['i', '0']).1 =
      .error (.destroyFailed "api error") ∧
    (Aws.removePodSandbox c2EnvDestroyFail c2Map ['i', '0']).2.1 = c2Map := by
  have hok := (C2_remove_ordering c1EnvOk c2Map ['i', '0'] c2Pod 0
    (by decide)).1 rfl
  have hfail := (C2_remove_ordering c2EnvDestroyFail c2Map ['i', '0'] c2Pod 0
    (by decide)).2.1 "api error" rfl
  exact ⟨hok.2.1, hok.2.2.2, hfail.1, hfail.2.1⟩

/-! ### Claim C3: state-refresh / staleness policy -/

/-- Claim C3 counterexample: the virtualbox provider keeps no cached
backend-state sample at all — refuting the claim's "in every provider"
quantification: a `PodSandboxStatus` call issues a `GetState` query on every
invocation (so two calls at any two instants, in particular within 30
seconds of each other, both query), and a failing query is surfaced as an
error instead of the call returning from a stale sample. -/
theorem C3_counterexample :
    (Vbox.podSandboxStatus cVEnvStateFail c3Map ['p', '1']).1 =
      .error (.getStateFailed "timeout") ∧
    (Vbox.podSandboxStatus cVEnvOk c3Map ['p', '1']).2.2 =
      [.queryState 0] ∧
    (Vbox.podSandboxStatus cVEnvOk
        (Vbox.podSandboxStatus cVEnvOk c3Map ['p', '1']).2.1
        ['p', '1']).2.2 = [.queryState 0] :=
  ⟨rfl, rfl, rfl⟩

/-- Claim C3 (amended): the 30-second staleness policy belongs to the aws
provider only.  There, `updateVMState` issues a backend query iff the cached
sample is strictly older than 30 seconds; a failed query leaves the sample
and its timestamp untouched and the stale sample is still used; and after a
`Status` call refreshes the sample, a second `Status` call within 30 seconds
issues no query and returns the same cached sample.  The virtualbox provider
has no cache: every `Status` call on an existing sandbox issues a query, and
a query failure is returned as an error. -/
theorem C3_state_refresh (env : Aws.Env) (now now2 : Nat) (pd : Aws.AwsPod)
    (m : Aws.VmMap) (id : List Char) :
    ((Aws.updateVMState env now pd).2.2 ≠ [] ↔
      now > pd.vmStateLastChecked + 30) ∧
    (∀ e, env.getState pd.vm = .error e →
      (Aws.updateVMState env now pd).1 = pd.vmState ∧
      (Aws.updateVMState env now pd).2.1 = pd) ∧
    (now ≤ pd.vmStateLastChecked + 30 →
      Aws.updateVMState env now pd = (pd.vmState, pd, [])) ∧
    (∀ s, alookup id m = some pd → env.getState pd.vm = .ok s →
      now > pd.vmStateLastChecked + 30 → now2 ≤ now + 30 →
      (Aws.podSandboxStatus env now m id).2.2 = [.queryState pd.vm] ∧
      ∃ pd1, alookup id (Aws.podSandboxStatus env now m id).2.1 = some pd1 ∧
        pd1.vmState = s ∧ pd1.vmStateLastChecked = now ∧
        (Aws.podSandboxStatus env now2
            (Aws.podSandboxStatus env now m id).2.1 id).2.2 = [] ∧
        ∃ pd2, alookup id (Aws.podSandboxStatus env now2
            (Aws.podSandboxStatus env now m id).2.1 id).2.1 = some pd2 ∧
          pd2.vmState = s) ∧
    (∀ (venv : Vbox.Env) (vmm : Vbox.VmMap) (vpd : Vbox.VboxPod),
      alookup id vmm = some vpd →
      (Vbox.podSandboxStatus venv vmm id).2.2 = [.queryState vpd.vm] ∧
      (∀ e, venv.getState vpd.vm = .error e →
        (Vbox.podSandboxStatus venv vmm id).1 =
          .error (.getStateFailed e))) := by
  refine ⟨?_, ?_, ?_, ?_, ?_⟩
  · by_cases hgt : now > pd.vmStateLastChecked + 30
    · cases hs : env.getState pd.vm with
      | ok s => rw [updateVMState_stale_ok env now pd s hgt hs]; simp [hgt]
      | error e => rw [updateVMState_stale_err env now pd e hgt hs]; simp [hgt]
    · rw [updateVMState_fresh env now pd hgt]
      simpa using hgt
  · intro e he
    by_cases hgt : now > pd.vmStateLastChecked + 30
    · rw [updateVMState_stale_err env now pd e hgt he]
      exact ⟨rfl, rfl⟩
    · rw [updateVMState_fresh env now pd hgt]
      exact ⟨rfl, rfl⟩
  · intro hle
    exact updateVMState_fresh env now pd (by omega)
  · intro s h hs hgt hle
    rw [podSandboxStatus_found env now m id pd h,
      updateVMState_stale_ok env now pd s hgt hs]
    refine ⟨rfl, _, alookup_ainsert_self _ _ _, ?_, ?_, ?_⟩
    · exact downgrade_vmState s _
    · exact downgrade_lastChecked s _
    · rw [podSandboxStatus_found env now2 _ id _ (alookup_ainsert_self _ _ _),
        updateVMState_fresh env now2 _ (by
          rw [downgrade_lastChecked]
          show ¬now2 > now + 30
          omega)]
      refine ⟨rfl, _, alookup_ainsert_self _ _ _, ?_⟩
      rw [downgrade_vmState, downgrade_vmState]
  · intro venv vmm vpd hv
    constructor
    · cases hs : venv.getState vpd.vm <;>
        simp [Vbox.podSandboxStatus, hv, hs]
    · intro e he
      simp [Vbox.podSandboxStatus, hv, he]

/-- Claim C3 witness: a concrete aws record with a sample taken at time 0 —
a `Status` at time 31 queries and refreshes, a follow-up `Status` at time 40
(within 30 seconds) issues no query and keeps the same sample; a fresh call
at time 10 never queries; a failing query at time 50 leaves the record
untouched. -/
theorem C3_witness :
    (Aws.podSandboxStatus c5EnvStopped 31 c2Map ['i', '0']).2.2 =
      [.queryState 0] ∧
    (Aws.podSandboxStatus c5EnvStopped 40
        (Aws.podSandboxStatus c5EnvStopped 31 c2Map ['i', '0']).2.1
        ['i', '0']).2.2 = [] ∧
    Aws.updateVMState c1EnvOk 10 c2Pod = (c2Pod.vmState, c2Pod, []) ∧
    (Aws.updateVMState { c1EnvOk with
        getState := fun _ => .error "down" } 50 c2Pod).2.1 = c2Pod := by
  have h := C3_state_refresh c5EnvStopped 31 40 c2Pod c2Map ['i', '0']
  have hq := h.2.2.2.1 "stopped" (by decide) rfl (by decide) (by decide)
  obtain ⟨h1, pd1, hpd1, hvs, hlc, h2, -⟩ := hq
  refine ⟨h1, h2, ?_, ?_⟩
  · exact (C3_state_refresh c1EnvOk 10 0 c2Pod c2Map ['i', '0']).2.2.1
      (by decide)
  · exact ((C3_state_refresh { c1EnvOk with
      getState := fun _ => .error "down" } 50 0 c2Pod c2Map
      ['i', '0']).2.1 "down" rfl).2

/-! ### Claim C5: NotReady downgrade on non-running backend state -/

/-- Claim C5: in the aws provider, both `PodSandboxStatus` and the
per-record `filter` of `ListPodSandbox` set the record's lifecycle state to
`NotReady` and report `NotReady` whenever the (possibly just-refreshed)
backend sample is not `running` — even if the cached lifecycle state was
`Ready` — and leave the lifecycle state untouched when the sample is
`running`. -/
theorem C5_status_downgrade (env : Aws.Env) (now : Nat) (m : Aws.VmMap)
    (id : List Char) (pd : Aws.AwsPod) (f : Option PodSandboxFilter)
    (h : alookup id m = some pd) :
    ((Aws.updateVMState env now pd).1 ≠ vmRunning →
      (Aws.podSandboxStatus env now m id).1 =
        .ok { pd.pod.podStatus with state := .notReady } ∧
      (∃ pd1, alookup id (Aws.podSandboxStatus env now m id).2.1 = some pd1 ∧
        pd1.pod.podState = .notReady) ∧
      (Aws.filterOne env now f pd).2.1.pod.podState = .notReady) ∧
    ((Aws.updateVMState env now pd).1 = vmRunning →
      (Aws.podSandboxStatus env now m id).1 = .ok pd.pod.podStatus ∧
      (∃ pd1, alookup id (Aws.podSandboxStatus env now m id).2.1 = some pd1 ∧
        pd1.pod.podState = pd.pod.podState) ∧
      (Aws.filterOne env now f pd).2.1.pod.podState = pd.pod.podState) := by
  constructor
  · intro hne
    rw [podSandboxStatus_found env now m id pd h]
    have hpod := downgrade_not_running (Aws.updateVMState env now pd).1
      (Aws.updateVMState env now pd).2.1 hne
    refine ⟨?_, ⟨_, alookup_ainsert_self _ _ _, ?_⟩, ?_⟩
    · rw [hpod, updateVMState_pod]
      rfl
    · rw [hpod]
    · simp only [Aws.filterOne]
      split_ifs <;> rw [hpod]
  · intro hrun
    rw [podSandboxStatus_found env now m id pd h]
    have hpod : (Aws.downgrade (Aws.updateVMState env now pd).1
        (Aws.updateVMState env now pd).2.1).pod = pd.pod := by
      rw [hrun, downgrade_running, updateVMState_pod]
    refine ⟨?_, ⟨_, alookup_ainsert_self _ _ _, ?_⟩, ?_⟩
    · rw [hpod]
    · rw [hpod]
    · simp only [Aws.filterOne]
      split_ifs <;> rw [hpod]

/-- Claim C5 witness: a `Ready` record whose stale sample refreshes to
`stopped` is reported and stored `NotReady`; with a fresh `running` sample
it stays `Ready`. -/
theorem C5_witness :
    (Aws.podSandboxStatus c5EnvStopped 100 c2Map ['i', '0']).1 =
      .ok { c2Pod.pod.podStatus with state := .notReady } ∧
    (Aws.podSandboxStatus c1EnvOk 10 c2Map ['i', '0']).1 =
      .ok c2Pod.pod.podStatus := by
  have h1 := (C5_status_downgrade c5EnvStopped 100 c2Map ['i', '0'] c2Pod
    none (by decide)).1 (by decide)
  have h2 := (C5_status_downgrade c1EnvOk 10 c2Map ['i', '0'] c2Pod
    none (by decide)).2 (by decide)
  exact ⟨h1.1, h2.1⟩

/-! ### Claims C9 and C10: gcp image status -/

/-- Shape of `gcpImageProvider.ImageStatus`: a pure lookup of the normalized
reference, returning the map unchanged. -/
theorem imageStatus_shape (m : Gcp.ImageMap) (r : Gcp.Ref) :
    Gcp.imageStatus m r =
      ((match alookup (Gcp.normName r) m with
        | some i => .ok (some i)
        | none => .ok none), m, Gcp.normName r) := by
  cases hl : alookup (Gcp.normName r) m <;>
    simp [Gcp.imageStatus, Gcp.listImages, hl]

/-- Claim C9: `ImageStatus` never modifies the image directory; a reference
with no `:` has `":latest"` appended before the lookup; a (unique, since the
directory is a map) match under the looked-up key returns that image's
record, and no match returns the empty response. -/
theorem C9_image_status (m : Gcp.ImageMap) (r : Gcp.Ref) :
    (Gcp.imageStatus m r).2.1 = m ∧
    (':' ∉ r → (Gcp.imageStatus m r).2.2 = r ++ Gcp.latestSuffix) ∧
    (∀ i, alookup (Gcp.imageStatus m r).2.2 m = some i →
      (Gcp.imageStatus m r).1 = .ok (some i)) ∧
    (alookup (Gcp.imageStatus m r).2.2 m = none →
      (Gcp.imageStatus m r).1 = .ok none) := by
  rw [imageStatus_shape]
  refine ⟨rfl, ?_, ?_, ?_⟩
  · intro hnc
    simp only [Gcp.normName, if_pos ((splitChar_length_one ':' r).mpr hnc)]
  · intro i hi
    simp only at hi
    simp [hi]
  · intro hn
    simp only at hn
    simp [hn]

/-- Claim C9 witness: looking up `img` in a directory keyed by `img:latest`
appends the default tag and finds the record; looking up `other` returns the
empty response; the directory is unchanged in both cases. -/
theorem C9_witness :
    (Gcp.imageStatus c9Map "img".toList).1 = .ok (some c9Image) ∧
    (Gcp.imageStatus c9Map "other".toList).1 = .ok none ∧
    (Gcp.imageStatus c9Map "img".toList).2.1 = c9Map := by
  have h1 := C9_image_status c9Map "img".toList
  have h2 := C9_image_status c9Map "other".toList
  refine ⟨?_, ?_, h1.1⟩
  · refine h1.2.2.1 c9Image ?_
    rw [h1.2.1 (by decide)]
    decide
  · refine h2.2.2.2 ?_
    rw [h2.2.1 (by decide)]
    decide

/-- Claim C10: `ImageStatus` rewrites the request's image reference in place:
when the incoming reference contains no `:` the request's reference field
afterwards equals the original with `":latest"` appended (and in particular
differs from the original — the caller's request object is visibly mutated);
when the reference already contains `:` it is left unchanged. -/
theorem C10_request_mutation (m : Gcp.ImageMap) (r : Gcp.Ref) :
    (':' ∉ r →
      (Gcp.imageStatus m r).2.2 = r ++ Gcp.latestSuffix ∧
      (Gcp.imageStatus m r).2.2 ≠ r) ∧
    (':' ∈ r → (Gcp.imageStatus m r).2.2 = r) := by
  rw [imageStatus_shape]
  constructor
  · intro hnc
    simp only [Gcp.normName, if_pos ((splitChar_length_one ':' r).mpr hnc)]
    refine ⟨by simp, ?_⟩
    intro hcontra
    have := congrArg List.length hcontra
    simp [Gcp.latestSuffix] at this
  · intro hc
    have : ¬(splitChar ':' r).length = 1 := by
      rw [splitChar_length_one]
      simpa using hc
    simp only [Gcp.normName, if_neg this]

/-- Claim C10 witness: the untagged reference `img` is rewritten to
`img:latest` on the request; the tagged reference `a:b` is untouched. -/
theorem C10_witness :
    (Gcp.imageStatus c9Map "img".toList).2.2 = "img:latest".toList ∧
    (Gcp.imageStatus c9Map "img".toList).2.2 ≠ "img".toList ∧
    (Gcp.imageStatus c9Map "a:b".toList).2.2 = "a:b".toList := by
  have h1 := (C10_request_mutation c9Map "img".toList).1 (by decide)
  have h2 := (C10_request_mutation c9Map "a:b".toList).2 (by decide)
  refine ⟨?_, h1.2, h2⟩
  rw [h1.1]
  decide

/-! ### Claim C8: GetVMList fatal double unlock -/

/-- Claim C8 (code bug): the variant aws revision's `GetVMList` takes the map
lock, registers a deferred `Unlock`, and then also calls `Unlock` explicitly
before returning — so on every call, with any directory contents, the
deferred unlock runs on an already-unlocked `sync.Mutex`, which is a fatal
runtime error that crashes the process instead of returning the id list. -/
theorem C8_getVMList_fatal (m : Aws.VmMap) :
    Part000.getVMList m = .error .unlockOfUnlockedMutex := rfl

/-! ### Claim C7: NotFound leaves everything unchanged -/

/-- Claim C7: for an id absent from the directory, `Stop`, `Remove` and
`Status` — in both the aws and virtualbox providers — return the
invalid-pod-sandbox-id (not-found) error, leave the directory (and hence
every record) exactly as it was, and issue no backend call. -/
theorem C7_not_found (m : Aws.VmMap) (vm' : Vbox.VmMap) (env : Aws.Env)
    (venv : Vbox.Env) (now : Nat) (id : List Char)
    (h : alookup id m = none) (h' : alookup id vm' = none) :
    Aws.stopPodSandbox m id = (.error (.notFound "StopPodSandbox" id), m, []) ∧
    Aws.removePodSandbox env m id =
      (.error (.notFound "RemovePodSandbox" id), m, []) ∧
    Aws.podSandboxStatus env now m id =
      (.error (.notFound "PodSandboxStatus" id), m, []) ∧
    Vbox.stopPodSandbox vm' id =
      (.error (.notFound "StopPodSandbox" id), vm', []) ∧
    Vbox.removePodSandbox venv vm' id =
      (.error (.notFound "RemovePodSandbox" id), vm', []) ∧
    Vbox.podSandboxStatus venv vm' id =
      (.error (.notFound "PodSandboxStatus" id), vm', []) := by
  refine ⟨?_, ?_, ?_, ?_, ?_, ?_⟩ <;>
    simp [Aws.stopPodSandbox, Aws.removePodSandbox, Aws.podSandboxStatus,
      Vbox.stopPodSandbox, Vbox.removePodSandbox, Vbox.podSandboxStatus, h, h']

/-- Claim C7 witness: the empty directories at the concrete id `x1`. -/
theorem C7_witness :
    Aws.stopPodSandbox [] ['x', '1'] =
      (.error (.notFound "StopPodSandbox" ['x', '1']), [], []) ∧
    Vbox.podSandboxStatus cVEnvOk [] ['x', '1'] =
      (.error (.notFound "PodSandboxStatus" ['x', '1']), [], []) := by
  have h := C7_not_found [] [] c1EnvOk cVEnvOk 0 ['x', '1'] rfl rfl
  exact ⟨h.1, h.2.2.2.2.2⟩

/-! ### Claim C6: container-request routing -/

/-- Claim C6: a container-scoped request recovers its sandbox id as the first
colon-delimited segment of the container identifier; when that sandbox is in
the directory the original request is forwarded, exactly once and unmodified,
to that sandbox's agent client and the agent's response or error comes back
unchanged; when it is not, the call fails with the sandbox-not-found error
and no agent is contacted. -/
theorem C6_container_routing {Req Resp : Type}
    (agent : Option Nat → Req → Except String Resp) (m : Aws.VmMap)
    (cid : List Char) (req : Req) :
    (∀ pd, alookup (Router.parsePodId cid) m = some pd →
      (Router.containerStatus agent m cid req).2 = [(pd.pod.client, req)] ∧
      (∀ r, agent pd.pod.client req = .ok r →
        (Router.containerStatus agent m cid req).1 = .ok r) ∧
      (∀ e, agent pd.pod.client req = .error e →
        (Router.containerStatus agent m cid req).1 =
          .error (.agentError e))) ∧
    (alookup (Router.parsePodId cid) m = none →
      (Router.containerStatus agent m cid req).1 =
        .error (.sandboxNotFound (Router.parsePodId cid)) ∧
      (Router.containerStatus agent m cid req).2 = []) := by
  constructor
  · intro pd hpd
    refine ⟨?_, ?_, ?_⟩
    · simp [Router.containerStatus, Router.getClient, Aws.getClient, hpd]
      cases agent pd.pod.client req <;> simp
    · intro r hr
      simp [Router.containerStatus, Router.getClient, Aws.getClient, hpd, hr]
    · intro e he
      simp [Router.containerStatus, Router.getClient, Aws.getClient, hpd, he]
  · intro hnone
    constructor <;>
      simp [Router.containerStatus, Router.getClient, Aws.getClient, hnone]

/-- Claim C6 witness: container id `sbx1:abc` routes to sandbox `sbx1`'s
agent with the request intact, and `sbx-missing:abc` fails sandbox-not-found
with no agent contact. -/
theorem C6_witness :
    (Router.containerStatus (fun c r => .ok (c, r)) c6Map
        "sbx1:abc".toList (42 : Nat)).1 = .ok (some 7, 42) ∧
    (Router.containerStatus (fun c r => .ok (c, r)) c6Map
        "sbx1:abc".toList (42 : Nat)).2 = [(some 7, 42)] ∧
    (Router.containerStatus (fun c r => .ok (c, r)) c6Map
        "sbx-missing:abc".toList (42 : Nat)).1 =
      .error (.sandboxNotFound "sbx-missing".toList) ∧
    (Router.containerStatus (fun c r => .ok (c, r)) c6Map
        "sbx-missing:abc".toList (42 : Nat)).2 = [] := by
  have h1 := (C6_container_routing (fun c r => .ok (c, r)) c6Map
    "sbx1:abc".toList (42 : Nat)).1 c2Pod (by decide)
  have h2 := (C6_container_routing (fun c r => .ok (c, r)) c6Map
    "sbx-missing:abc".toList (42 : Nat)).2 (by decide)
  refine ⟨?_, ?_, ?_, h2.2⟩
  · have := h1.2.1 (some 7, 42) (by rfl)
    simpa [c2Pod] using this
  · simpa [c2Pod] using h1.1
  · have := h2.1
    simpa using this

end Infranetes
